import Mathlib

/-!
Verification development for the resilient stock-data extraction pipeline
(`technical_indicators_extractor.py`): the multi-strategy fetch chain, the
indicator page model, the deterministic mock generator, the per-batch
orchestration, the pandas-based merge/backup persistence layer, and the
rolling-window rate limiter described by the design document.

Python values are embedded as exact data: numbers become `ℚ` (the float
values occurring in the modelled fragment are all exactly representable),
dictionaries become insertion-ordered association lists, pandas `NaN`
becomes an explicit `Cell.nan` constructor, and the effectful parts
(HTTP responses, the Selenium driver, the filesystem) are passed in as
explicit environment parameters.
-/

/-! ## Generic association-list helpers

Python `dict` and the pandas row/column lookups are modelled with
insertion-ordered association lists: `alSet` overwrites in place (keeping
the key's original position, as `dict.__setitem__` does) and appends
unknown keys at the end. -/

/-- Lookup of the first binding of a key, i.e. `d[k]` / `d.get(k)`. -/
def alGet {α : Type} : List (String × α) → String → Option α
  | [], _ => none
  | (k', v') :: rest, k => if k' = k then some v' else alGet rest k

/-- `d[k] = v`: overwrite the first binding in place, else append. -/
def alSet {α : Type} : List (String × α) → String → α → List (String × α)
  | [], k, v => [(k, v)]
  | (k', v') :: rest, k, v =>
      if k' = k then (k', v) :: rest else (k', v') :: alSet rest k v

/-- `d.update(u)`: fold `alSet` over the update list, in order. -/
def alUpdate {α : Type} (d u : List (String × α)) : List (String × α) :=
  u.foldl (fun acc kv => alSet acc kv.1 kv.2) d

/-- The keys of an association list, in order. -/
def alKeys {α : Type} (d : List (String × α)) : List String :=
  d.map Prod.fst

/-! ## String helpers used by the source (substring test, `str.replace`) -/

/-- Boolean prefix test on character lists. -/
def listPrefixOf : List Char → List Char → Bool
  | [], _ => true
  | _ :: _, [] => false
  | a :: as, b :: bs => a = b && listPrefixOf as bs

/-- Boolean contiguous-sublist test on character lists. -/
def listContains : List Char → List Char → Bool
  | [], needle => listPrefixOf needle []
  | c :: t, needle => listPrefixOf needle (c :: t) || listContains t needle

/-- Python's `sub in s` substring operator. -/
def pyIn (sub s : String) : Bool := listContains s.toList sub.toList

/-- Fuel-driven body of `str.replace`: replaces non-overlapping occurrences
left to right.  The fuel is the length of the subject string, so the
recursion is structural and the function evaluates inside the kernel. -/
def replaceAllGo (pat repl : List Char) : Nat → List Char → List Char
  | 0, s => s
  | fuel + 1, s =>
      match s with
      | [] => []
      | c :: t =>
          if pat ≠ [] ∧ listPrefixOf pat s then
            repl ++ replaceAllGo pat repl fuel (s.drop pat.length)
          else
            c :: replaceAllGo pat repl fuel t

/-- Python's `s.replace(pat, repl)` (all occurrences). -/
def pyReplace (s pat repl : String) : String :=
  String.mk (replaceAllGo pat.toList repl.toList s.toList.length s.toList)

/-! ## Cells

A spreadsheet / record cell: a number, a string, or pandas' `NaN`
(which the buggy merge writes into rows that are missing from a batch). -/

inductive Cell where
  | num (q : ℚ)
  | str (s : String)
  | nan
deriving DecidableEq

/-- One result record (a Python dict: insertion-ordered `String × Cell`). -/
abbrev Record := List (String × Cell)

/-- Read a cell as the string it holds (tickers are stored as strings). -/
def cellStr : Cell → String
  | Cell.str s => s
  | _ => ""

/-! ## MD5

`_generate_mock_indicators` seeds its values from
`int(hashlib.md5(ticker.encode()).hexdigest()[:8], 16)`.  The standard
MD5 algorithm (RFC 1321) is embedded here over `Nat` with explicit
`% 2^32` reductions; the first eight hex digits of the digest are the
first four digest bytes read in print order. -/

/-- Truncate to a 32-bit word. -/
def u32 (x : Nat) : Nat := x % 4294967296

/-- 32-bit modular addition. -/
def add32 (a b : Nat) : Nat := u32 (a + b)

/-- 32-bit bitwise complement. -/
def not32 (x : Nat) : Nat := x ^^^ 4294967295

/-- 32-bit left rotation. -/
def rotl32 (x n : Nat) : Nat := u32 ((x <<< n) ||| (x >>> (32 - n)))

/-- MD5 round function F. -/
def md5F (b c d : Nat) : Nat := (b &&& c) ||| (not32 b &&& d)

/-- MD5 round function G. -/
def md5G (b c d : Nat) : Nat := (d &&& b) ||| (not32 d &&& c)

/-- MD5 round function H. -/
def md5H (b c d : Nat) : Nat := b ^^^ c ^^^ d

/-- MD5 round function I. -/
def md5I (b c d : Nat) : Nat := c ^^^ (b ||| not32 d)

/-- The 64 MD5 sine-derived constants `⌊|sin(i+1)| · 2^32⌋`. -/
def md5K : List Nat :=
  [3614090360, 3905402710, 606105819, 3250441966, 4118548399, 1200080426,
   2821735955, 4249261313, 1770035416, 2336552879, 4294925233, 2304563134,
   1804603682, 4254626195, 2792965006, 1236535329, 4129170786, 3225465664,
   643717713, 3921069994, 3593408605, 38016083, 3634488961, 3889429448,
   568446438, 3275163606, 4107603335, 1163531501, 2850285829, 4243563512,
   1735328473, 2368359562, 4294588738, 2272392833, 1839030562, 4259657740,
   2763975236, 1272893353, 4139469664, 3200236656, 681279174, 3936430074,
   3572445317, 76029189, 3654602809, 3873151461, 530742520, 3299628645,
   4096336452, 1126891415, 2878612391, 4237533241, 1700485571, 2399980690,
   4293915773, 2240044497, 1873313359, 4264355552, 2734768916, 1309151649,
   4149444226, 3174756917, 718787259, 3951481745]

/-- The 64 MD5 per-round left-rotation amounts. -/
def md5S : List Nat :=
  [7, 12, 17, 22, 7, 12, 17, 22, 7, 12, 17, 22, 7, 12, 17, 22,
   5, 9, 14, 20, 5, 9, 14, 20, 5, 9, 14, 20, 5, 9, 14, 20,
   4, 11, 16, 23, 4, 11, 16, 23, 4, 11, 16, 23, 4, 11, 16, 23,
   6, 10, 15, 21, 6, 10, 15, 21, 6, 10, 15, 21, 6, 10, 15, 21]

/-- UTF-8 encoding of one code point (`str.encode()` byte production). -/
def utf8EncodeChar (c : Nat) : List Nat :=
  if c < 128 then [c]
  else if c < 2048 then
    [192 ||| (c >>> 6), 128 ||| (c &&& 63)]
  else if c < 65536 then
    [224 ||| (c >>> 12), 128 ||| ((c >>> 6) &&& 63), 128 ||| (c &&& 63)]
  else
    [240 ||| (c >>> 18), 128 ||| ((c >>> 12) &&& 63),
     128 ||| ((c >>> 6) &&& 63), 128 ||| (c &&& 63)]

/-- `s.encode()`: the UTF-8 bytes of a string. -/
def utf8Bytes (s : String) : List Nat :=
  (s.toList.map (fun ch => utf8EncodeChar ch.toNat)).flatten

/-- MD5 padding: append `0x80`, zero-fill to 56 mod 64, then the
original bit length as 8 little-endian bytes. -/
def md5Pad (msg : List Nat) : List Nat :=
  let len := msg.length
  let padLen := (120 - (len + 1) % 64) % 64
  msg ++ [128] ++ List.replicate padLen 0 ++
    (List.range 8).map (fun i => ((8 * len) >>> (8 * i)) % 256)

/-- The `j`-th little-endian 32-bit word of a 64-byte chunk. -/
def md5WordAt (chunk : List Nat) (j : Nat) : Nat :=
  chunk.getD (4 * j) 0 + 256 * chunk.getD (4 * j + 1) 0 +
    65536 * chunk.getD (4 * j + 2) 0 + 16777216 * chunk.getD (4 * j + 3) 0

/-- One of the 64 MD5 rounds on the state `(a, b, c, d)`. -/
def md5Round (chunk : List Nat) (st : Nat × Nat × Nat × Nat) (i : Nat) :
    Nat × Nat × Nat × Nat :=
  let (a, b, c, d) := st
  let f :=
    if i < 16 then md5F b c d
    else if i < 32 then md5G b c d
    else if i < 48 then md5H b c d
    else md5I b c d
  let g :=
    if i < 16 then i
    else if i < 32 then (5 * i + 1) % 16
    else if i < 48 then (3 * i + 5) % 16
    else (7 * i) % 16
  let tmp := add32 (add32 a f) (add32 (md5K.getD i 0) (md5WordAt chunk g))
  (d, add32 b (rotl32 tmp (md5S.getD i 0)), b, c)

/-- Process one 64-byte chunk: run the 64 rounds and add the result
into the running state. -/
def md5Chunk (st : Nat × Nat × Nat × Nat) (chunk : List Nat) :
    Nat × Nat × Nat × Nat :=
  let (a0, b0, c0, d0) := st
  let (a, b, c, d) := (List.range 64).foldl (md5Round chunk) st
  (add32 a0 a, add32 b0 b, add32 c0 c, add32 d0 d)

/-- Split a byte list into 64-byte chunks (fuel keeps it structural). -/
def md5ChunksGo : Nat → List Nat → List (List Nat)
  | 0, _ => []
  | _, [] => []
  | fuel + 1, bytes => bytes.take 64 :: md5ChunksGo fuel (bytes.drop 64)

/-- The four 32-bit MD5 state words after hashing a byte string. -/
def md5State (msg : List Nat) : Nat × Nat × Nat × Nat :=
  let padded := md5Pad msg
  (md5ChunksGo padded.length padded).foldl md5Chunk
    (1732584193, 4023233417, 2562383102, 271733878)

/-- `int(hashlib.md5(ticker.encode()).hexdigest()[:8], 16)`: the first
four digest bytes (the little-endian bytes of state word A) read as a
big-endian number, exactly as the hex string prefix is parsed. -/
def md5HashVal (ticker : String) : Nat :=
  let (a, _, _, _) := md5State (utf8Bytes ticker)
  (a % 256) <<< 24 ||| ((a >>> 8) % 256) <<< 16 |||
    ((a >>> 16) % 256) <<< 8 ||| (a >>> 24)

/-! ## Python `round`

The mock generator calls `round(x, n)`.  The float values produced there
are exactly representable, so the embedding uses exact rationals with
round-half-to-even, which agrees with Python on these inputs. -/

/-- Round-half-to-even of a rational to an integer (Python `round(x)`). -/
def roundHalfEven (q : ℚ) : ℤ :=
  let f := ⌊q⌋
  let r := q - f
  if r < 1 / 2 then f
  else if 1 / 2 < r then f + 1
  else if f % 2 = 0 then f else f + 1

/-- Python `round(q, n)`: round-half-to-even at `n` decimal places. -/
def pyRound (q : ℚ) (n : Nat) : ℚ :=
  (roundHalfEven (q * 10 ^ n) : ℚ) / 10 ^ n

/-! ## Page model and indicator extraction

`_extract_indicators_investing_com` runs, for each indicator, an ordered
list of regular expressions over the page text and keeps the first match.
A page is modelled by the outcome of those pattern groups: for each
indicator the numeric value of the first matching pattern (or `none`),
the volume with its optional K/M/B magnitude suffix, and the
`(label, parsed value)` rows that the structured pivot-table pass
(`_extract_pivot_points`) walks over. -/

structure PageMatches where
  rsi : Option ℚ
  ema20 : Option ℚ
  sma50 : Option ℚ
  macd : Option ℚ
  bbUpper : Option ℚ
  bbLower : Option ℚ
  volume : Option (ℚ × Option Char)
  adx : Option ℚ
  atr : Option ℚ
  pivotRows : List (String × Option ℚ)
deriving DecidableEq

/-- The 17 declared indicator names, in the order of the source's
initial dictionary and of the fallback-record loop. -/
def indicatorKeys : List String :=
  ["Woodies_Pivot", "Woodies_S1", "Woodies_S2", "Woodies_R1", "Woodies_R2",
   "EMA20", "SMA50", "RSI_14", "MACD_value", "MACD_signal", "MACD_histogram",
   "Bollinger_upper", "Bollinger_middle", "Bollinger_lower", "Volume_daily",
   "ADX_14", "ATR_14"]

/-- The initial all-`'N/A'` indicator dictionary. -/
def initIndicators : Record :=
  [("Woodies_Pivot", Cell.str "N/A"), ("Woodies_S1", Cell.str "N/A"),
   ("Woodies_S2", Cell.str "N/A"), ("Woodies_R1", Cell.str "N/A"),
   ("Woodies_R2", Cell.str "N/A"), ("EMA20", Cell.str "N/A"),
   ("SMA50", Cell.str "N/A"), ("RSI_14", Cell.str "N/A"),
   ("MACD_value", Cell.str "N/A"), ("MACD_signal", Cell.str "N/A"),
   ("MACD_histogram", Cell.str "N/A"), ("Bollinger_upper", Cell.str "N/A"),
   ("Bollinger_middle", Cell.str "N/A"), ("Bollinger_lower", Cell.str "N/A"),
   ("Volume_daily", Cell.str "N/A"), ("ADX_14", Cell.str "N/A"),
   ("ATR_14", Cell.str "N/A")]

/-- `if value is not None: indicators[key] = value` after a pattern loop. -/
def applyMatch (ind : Record) (key : String) (m : Option ℚ) : Record :=
  match m with
  | some v => alSet ind key (Cell.num v)
  | none => ind

/-- K/M/B magnitude-suffix expansion of the volume match. -/
def volumeValue (v : ℚ × Option Char) : ℚ :=
  match v.2 with
  | some c =>
      if c = 'K' then v.1 * 1000
      else if c = 'M' then v.1 * 1000000
      else if c = 'B' then v.1 * 1000000000
      else v.1
  | none => v.1

/-- One row of the structured pivot-table pass: a successfully parsed
value is routed by substring tests on the lower-cased label; a
`ValueError` row (`none`) is skipped. -/
def pivotRowStep (ind : Record) (row : String × Option ℚ) : Record :=
  match row.2 with
  | none => ind
  | some v =>
      let label := row.1
      if pyIn "pivot" label || pyIn "pp" label then
        alSet ind "Woodies_Pivot" (Cell.num v)
      else if pyIn "s1" label || pyIn "support 1" label then
        alSet ind "Woodies_S1" (Cell.num v)
      else if pyIn "s2" label || pyIn "support 2" label then
        alSet ind "Woodies_S2" (Cell.num v)
      else if pyIn "r1" label || pyIn "resistance 1" label then
        alSet ind "Woodies_R1" (Cell.num v)
      else if pyIn "r2" label || pyIn "resistance 2" label then
        alSet ind "Woodies_R2" (Cell.num v)
      else ind

/-- `_extract_pivot_points`: walk the pivot-table rows, overwriting the
pattern-matched Woodie values with the higher-confidence table values. -/
def extract_pivot_points (rows : List (String × Option ℚ)) (ind : Record) :
    Record :=
  rows.foldl pivotRowStep ind

/-- `_extract_indicators_investing_com`: start from the all-`'N/A'`
dictionary, write each first-matching pattern value, then run the
structured pivot-point pass. -/
def extract_indicators_investing_com (page : PageMatches) : Record :=
  let ind := initIndicators
  let ind := applyMatch ind "RSI_14" page.rsi
  let ind := applyMatch ind "EMA20" page.ema20
  let ind := applyMatch ind "SMA50" page.sma50
  let ind := applyMatch ind "MACD_value" page.macd
  let ind := applyMatch ind "Bollinger_upper" page.bbUpper
  let ind := applyMatch ind "Bollinger_lower" page.bbLower
  let ind :=
    match page.volume with
    | some v => alSet ind "Volume_daily" (Cell.num (volumeValue v))
    | none => ind
  let ind := applyMatch ind "ADX_14" page.adx
  let ind := applyMatch ind "ATR_14" page.atr
  extract_pivot_points page.pivotRows ind

/-! ## The extractor object

The mutable process state a `TechnicalIndicatorsExtractor` instance can
reach — its configuration plus the module-level `random` stream consumed
by `_random_delay` and the header rotation — is made explicit as the
`self` argument of the methods.  The requests session, the Selenium
driver and the per-run page cache are I/O handles; their observable
outcomes enter as explicit environment parameters instead. -/

structure ExtractorSelf where
  headless : Bool
  timeout : ℚ
  delay_min : ℚ
  delay_max : ℚ
  enable_selenium : Bool
  randSeq : Nat → ℚ

/-- `_generate_mock_indicators`: deterministic ticker-seeded mock data,
seeded from the first eight hex digits of the MD5 of the ticker. -/
def generate_mock_indicators (self : ExtractorSelf) (ticker : String) :
    Record :=
  let hash_val := md5HashVal ticker
  let mock_price : ℚ := 100 + ((hash_val % 500 : ℕ) : ℚ)
  [("Woodies_Pivot",
      Cell.num (pyRound (mock_price + ((hash_val % 20 : ℕ) : ℚ) - 10) 2)),
   ("Woodies_S1",
      Cell.num (pyRound (mock_price - 15 - ((hash_val % 10 : ℕ) : ℚ)) 2)),
   ("Woodies_S2",
      Cell.num (pyRound (mock_price - 25 - ((hash_val % 15 : ℕ) : ℚ)) 2)),
   ("Woodies_R1",
      Cell.num (pyRound (mock_price + 15 + ((hash_val % 10 : ℕ) : ℚ)) 2)),
   ("Woodies_R2",
      Cell.num (pyRound (mock_price + 25 + ((hash_val % 15 : ℕ) : ℚ)) 2)),
   ("EMA20",
      Cell.num (pyRound (mock_price + ((hash_val % 10 : ℕ) : ℚ) - 5) 2)),
   ("SMA50",
      Cell.num (pyRound (mock_price + ((hash_val % 12 : ℕ) : ℚ) - 6) 2)),
   ("RSI_14", Cell.num (pyRound (30 + ((hash_val % 40 : ℕ) : ℚ)) 1)),
   ("MACD_value", Cell.num (pyRound (((hash_val % 20 : ℕ) : ℚ) - 10) 3)),
   ("MACD_signal", Cell.num (pyRound (((hash_val % 15 : ℕ) : ℚ) - 7.5) 3)),
   ("MACD_histogram", Cell.num (pyRound (((hash_val % 8 : ℕ) : ℚ) - 4) 3)),
   ("Bollinger_upper",
      Cell.num (pyRound (mock_price + 20 + ((hash_val % 10 : ℕ) : ℚ)) 2)),
   ("Bollinger_middle", Cell.num (pyRound mock_price 2)),
   ("Bollinger_lower",
      Cell.num (pyRound (mock_price - 20 - ((hash_val % 10 : ℕ) : ℚ)) 2)),
   ("Volume_daily",
      Cell.num (((hash_val % 10000000 : ℕ) : ℚ) + 1000000)),
   ("ADX_14", Cell.num (pyRound (20 + ((hash_val % 50 : ℕ) : ℚ)) 1)),
   ("ATR_14", Cell.num (pyRound (1 + ((hash_val % 10 : ℕ) : ℚ)) 2))]

/-! ## Fetch strategies -/

/-- The observable outcome of one `session.get` call. -/
inductive FetchAttempt where
  | ok (page : PageMatches)
  | blocked403
  | rateLimited429
  | httpError (code : Nat)
  | connectionError (msg : String)
  | timedOut
  | unexpectedError (msg : String)
deriving DecidableEq

/-- The two diagnostic classifications the connection-error handler
logs (`DNS Resolution Failed …` versus `Connection error …`). -/
inductive LogEvent where
  | dnsResolutionFailed
  | genericConnectionError
deriving DecidableEq

/-- The source's DNS test: substring matching on the exception text. -/
def connIsDNS (msg : String) : Bool :=
  pyIn "Failed to resolve" msg || pyIn "Name or service not known" msg

/-- `_extract_with_selenium`: the driver is only available when Selenium
is enabled; `seleniumPage` is the environment's outcome for a successful
driver setup, navigation and parse. -/
def extract_with_selenium (self : ExtractorSelf)
    (seleniumPage : Option PageMatches) : Option PageMatches :=
  if self.enable_selenium then seleniumPage else none

/-- The `for attempt in range(max_retries)` loop of
`_extract_with_requests`: `i` is the attempt index, `rem + 1` the number
of attempts still allowed (`1 ≤ rem` is `attempt < max_retries - 1`).
Alongside the fetched page it returns the connection-error diagnostics
logged on the way. -/
def requestsAttempts (self : ExtractorSelf) (responses : Nat → FetchAttempt)
    (seleniumPage : Option PageMatches) :
    Nat → Nat → Option PageMatches × List LogEvent
  | _, 0 => (none, [])
  | i, rem + 1 =>
      match responses i with
      | FetchAttempt.ok page => (some page, [])
      | FetchAttempt.blocked403 =>
          if 1 ≤ rem then requestsAttempts self responses seleniumPage (i + 1) rem
          else
            ((if self.enable_selenium then extract_with_selenium self seleniumPage
              else none), [])
      | FetchAttempt.rateLimited429 =>
          if 1 ≤ rem then requestsAttempts self responses seleniumPage (i + 1) rem
          else (none, [])
      | FetchAttempt.httpError _ =>
          if 1 ≤ rem then requestsAttempts self responses seleniumPage (i + 1) rem
          else (none, [])
      | FetchAttempt.connectionError msg =>
          let ev :=
            if connIsDNS msg then LogEvent.dnsResolutionFailed
            else LogEvent.genericConnectionError
          if 1 ≤ rem then
            let (res, evs) := requestsAttempts self responses seleniumPage (i + 1) rem
            (res, ev :: evs)
          else (none, [ev])
      | FetchAttempt.timedOut =>
          if 1 ≤ rem then requestsAttempts self responses seleniumPage (i + 1) rem
          else (none, [])
      | FetchAttempt.unexpectedError _ =>
          if 1 ≤ rem then requestsAttempts self responses seleniumPage (i + 1) rem
          else (none, [])

/-- `_extract_with_requests` with its `max_retries = 3`. -/
def extract_with_requests (self : ExtractorSelf)
    (responses : Nat → FetchAttempt) (seleniumPage : Option PageMatches) :
    Option PageMatches × List LogEvent :=
  requestsAttempts self responses seleniumPage 0 3

/-! ## Per-ticker extraction and the batch loop -/

/-- `sum(1 for v in indicators.values() if v != 'N/A')`. -/
def meaningfulCount (indicators : Record) : Nat :=
  (indicators.filter (fun p => decide (p.2 ≠ Cell.str "N/A"))).length

/-- `extract_indicators_for_ticker`: try the requests strategy, then the
Selenium fallback, then deterministic mock data; tag the data quality
from the meaningful-match count and merge the indicators into the result
record. -/
def extract_indicators_for_ticker (self : ExtractorSelf)
    (ticker url ts : String) (responses : Nat → FetchAttempt)
    (seleniumPage : Option PageMatches) : Record :=
  let result : Record :=
    [("Ticker", Cell.str ticker), ("source_url", Cell.str url),
     ("indicator_last_checked", Cell.str ts),
     ("data_quality", Cell.str "fallback"), ("notes", Cell.str "")]
  match (extract_with_requests self responses seleniumPage).1 with
  | some soup =>
      let indicators := extract_indicators_investing_com soup
      let meaningful := meaningfulCount indicators
      let result :=
        if 3 ≤ meaningful then alSet result "data_quality" (Cell.str "good")
        else if 1 ≤ meaningful then alSet result "data_quality" (Cell.str "partial")
        else result
      alUpdate result indicators
  | none =>
      match extract_with_selenium self seleniumPage with
      | some soup =>
          let indicators := extract_indicators_investing_com soup
          let meaningful := meaningfulCount indicators
          let result :=
            if 3 ≤ meaningful then alSet result "data_quality" (Cell.str "good")
            else if 1 ≤ meaningful then alSet result "data_quality" (Cell.str "partial")
            else result
          let result := alSet result "notes" (Cell.str "Used Selenium fallback")
          alUpdate result indicators
      | none =>
          let indicators := generate_mock_indicators self ticker
          let result := alSet result "data_quality" (Cell.str "mock")
          let result := alSet result "notes"
            (Cell.str "Mock data - PRODUCTION ISSUE: Network/DNS failure. Run production_debug.py for fixes.")
          alUpdate result indicators

/-- The fallback record built when processing one ticker raises: the
metadata fields plus every indicator column set to `'N/A'`. -/
def fallback_result (ticker url ts msg : String) : Record :=
  let base : Record :=
    [("Ticker", Cell.str ticker), ("source_url", Cell.str url),
     ("indicator_last_checked", Cell.str ts),
     ("data_quality", Cell.str "fallback"),
     ("notes", Cell.str ("Processing error: " ++ msg))]
  indicatorKeys.foldl (fun acc k => alSet acc k (Cell.str "N/A")) base

/-- What happens when one batch item is processed: either the extractor
runs against its fetch environment, or some stage raises. -/
inductive ItemBehavior where
  | succeeds (responses : Nat → FetchAttempt) (seleniumPage : Option PageMatches)
  | raises (msg : String)

/-- One `(ticker, url)` row of the URL file with its runtime behavior. -/
structure BatchItem where
  ticker : String
  url : String
  behavior : ItemBehavior

/-- The record one loop iteration appends for an item: the extractor's
record, or — under the per-item `except` handler — the fallback record. -/
def itemResult (self : ExtractorSelf) (ts : String) (item : BatchItem) :
    Record :=
  match item.behavior with
  | ItemBehavior.succeeds responses seleniumPage =>
      extract_indicators_for_ticker self item.ticker item.url ts responses
        seleniumPage
  | ItemBehavior.raises msg => fallback_result item.ticker item.url ts msg

/-- The `for idx, row in url_df.iterrows()` loop: accumulate one record
per item, never aborting the batch. -/
def process_items (self : ExtractorSelf) (ts : String)
    (items : List BatchItem) : List Record :=
  items.foldl (fun results item => results ++ [itemResult self ts item]) []

/-! ## The pandas frames and the merge

`process_tickers_file` merges the batch into the existing table with

    output_df = output_df.set_index('Ticker')
    results_df = results_df.set_index('Ticker')
    for col in results_df.columns:
        output_df[col] = results_df[col]
    output_df = output_df.reset_index()

The decisive pandas semantics embedded here is column assignment
`df[col] = series`: the series is aligned to `df`'s existing index —
index labels of `df` missing from the series receive `NaN`, and labels
of the series that are not in `df`'s index are discarded.  Tickers are
assumed unique within a table, as the upsert design requires. -/

/-- A raw (un-indexed) DataFrame: column order plus one record per row. -/
structure RawFrame where
  cols : List String
  records : List Record
deriving DecidableEq

/-- `pd.DataFrame()`: the empty frame. -/
def RawFrame.empty : RawFrame := ⟨[], []⟩

/-- `df.empty`: some axis has length zero. -/
def RawFrame.isEmptyDf (f : RawFrame) : Bool :=
  f.records.isEmpty || f.cols.isEmpty

/-- A ticker-indexed DataFrame: remaining column order plus rows keyed
by their index label. -/
structure IndexedFrame where
  cols : List String
  rows : List (String × Record)
deriving DecidableEq

/-- `df.set_index('Ticker')`.  Raises `KeyError` — modelled as `none` —
when the frame has no `Ticker` column, which is exactly the shape of an
empty batch frame (`pd.DataFrame([])` has no columns at all). -/
def set_index_ticker (f : RawFrame) : Option IndexedFrame :=
  if "Ticker" ∈ f.cols then
    some ⟨f.cols.filter (fun c => decide (c ≠ "Ticker")),
      f.records.map (fun r =>
        (cellStr ((alGet r "Ticker").getD Cell.nan),
         r.filter (fun p => decide (p.1 ≠ "Ticker"))))⟩
  else none

/-- `df.reset_index()`: the index becomes the leading `Ticker` column. -/
def reset_index_ticker (f : IndexedFrame) : RawFrame :=
  ⟨"Ticker" :: f.cols,
   f.rows.map (fun r => ("Ticker", Cell.str r.1) :: r.2)⟩

/-- `df[col]` as a Series: the column's value at each index label. -/
def colSeries (f : IndexedFrame) (c : String) : List (String × Cell) :=
  f.rows.map (fun r => (r.1, (alGet r.2 c).getD Cell.nan))

/-- `df[col] = series`: align the series to `df`'s index (missing labels
get `NaN`, extra labels are discarded); a new column is appended. -/
def assignColumn (df : IndexedFrame) (c : String)
    (s : List (String × Cell)) : IndexedFrame :=
  ⟨if c ∈ df.cols then df.cols else df.cols ++ [c],
   df.rows.map (fun r => (r.1, alSet r.2 c ((alGet s r.1).getD Cell.nan)))⟩

/-- The `for col in results_df.columns` assignment loop. -/
def mergeFrames (output results : IndexedFrame) : IndexedFrame :=
  results.cols.foldl (fun acc c => assignColumn acc c (colSeries results c))
    output

/-- Lines 893–904 of `process_tickers_file`: merge into a non-empty
existing table with a `Ticker` column, else just take the batch frame.
In the merge branch the unguarded `results_df.set_index('Ticker')` can
raise `KeyError` (a batch frame without a `Ticker` column, e.g. from an
empty batch); the raise is modelled as `none` and propagates to the
caller's exception handler. -/
def merge_with_existing (output_df results_df : RawFrame) : Option RawFrame :=
  if ¬output_df.isEmptyDf ∧ "Ticker" ∈ output_df.cols then
    match set_index_ticker output_df, set_index_ticker results_df with
    | some oidx, some ridx => some (reset_index_ticker (mergeFrames oidx ridx))
    | _, _ => none
  else some results_df

/-- `pd.DataFrame(list_of_dicts)` column inference: the union of the
records' keys in first-appearance order. -/
def dfColumns (records : List Record) : List String :=
  records.foldl
    (fun acc r => acc ++ (alKeys r).filter (fun k => decide (k ∉ acc))) []

/-! ## The filesystem and `process_tickers_file` -/

/-- The Excel files visible to the run, keyed by path. -/
structure FileSys where
  files : List (String × RawFrame)
deriving DecidableEq

/-- The backup path: `output_file.replace('.xlsx', '')` plus a
`_backup_<timestamp>.xlsx` suffix. -/
def backup_name (output_file ts : String) : String :=
  pyReplace output_file ".xlsx" "" ++ "_backup_" ++ ts ++ ".xlsx"

/-- `process_tickers_file` over the filesystem model: load the URL
mappings, validate the required columns, back up an existing output
table, run the batch, merge, and write the merged table back.  `ts` is
the run timestamp (`datetime.now().strftime('%Y%m%d_%H%M%S')`);
`behaviors` gives each row's runtime behavior.  Returns the success
flag and the final filesystem.  When the merge raises (`KeyError` from
`set_index` on a batch frame without a `Ticker` column) the outer
`except` handler returns `False`: the backup written earlier remains on
disk but the output file is not touched. -/
def process_tickers_file (self : ExtractorSelf) (ts : String)
    (behaviors : Nat → ItemBehavior) (url_file output_file : String)
    (fs : FileSys) : Bool × FileSys :=
  match alGet fs.files url_file with
  | none => (false, fs)
  | some url_df =>
    if "Ticker" ∈ url_df.cols ∧ "URL" ∈ url_df.cols then
      let (output_df, fs1) :=
        match alGet fs.files output_file with
        | some existing =>
            (existing,
             FileSys.mk (alSet fs.files (backup_name output_file ts) existing))
        | none => (RawFrame.empty, fs)
      let items :=
        url_df.records.enum.map (fun p =>
          BatchItem.mk (cellStr ((alGet p.2 "Ticker").getD Cell.nan))
            (cellStr ((alGet p.2 "URL").getD Cell.nan)) (behaviors p.1))
      let results := process_items self ts items
      let results_df : RawFrame := ⟨dfColumns results, results⟩
      match merge_with_existing output_df results_df with
      | some merged => (true, FileSys.mk (alSet fs1.files output_file merged))
      | none => (false, fs1)
    else (false, fs)

/-! ## The rolling-window rate limiter

Modelled from the spec: the rate limiter guarding the Twelve Data price
fetcher is referenced only by its configuration surface
(`TWELVEDATA_REQUESTS_PER_MINUTE`, `TWELVEDATA_COOLDOWN_SECONDS` in
`config.example.py`); its implementation module is not part of the
source tree, so the component is modelled from §4.1 of the design:
a FIFO list of granted timestamps plus a cooldown deadline.  `acquire`
at current time `now` first waits out any cooldown, drops timestamps
that have exited the rolling 60-second window, grants immediately when
fewer than `r` remain, and otherwise sleeps until the oldest timestamp
exits the window and retries; in the single-threaded model one retry
always succeeds (after that sleep the oldest timestamp is prunable), so
the retry loop is unrolled once.  Time is exact (`ℚ`), and "sleeping"
means the returned grant time is later than the call time. -/

structure RateLimiterState where
  window : List ℚ
  cooldown_until : ℚ
deriving DecidableEq

/-- Drop the timestamps that have exited the rolling 60-second window
ending at `now`. -/
def pruneWindow (now : ℚ) (q : List ℚ) : List ℚ :=
  q.filter (fun t => decide (now - t < 60))

/-- `acquire()` called at time `now`: returns the grant time and the
successor state. -/
def acquire (r : Nat) (now : ℚ) (s : RateLimiterState) :
    ℚ × RateLimiterState :=
  let t1 := max now s.cooldown_until
  let q1 := pruneWindow t1 s.window
  if q1.length < r then (t1, ⟨q1 ++ [t1], s.cooldown_until⟩)
  else
    let t2 := q1.headD t1 + 60
    let q2 := pruneWindow t2 q1
    (t2, ⟨q2 ++ [t2], s.cooldown_until⟩)

/-- `impose_cooldown(seconds)`: only ever extends the deadline. -/
def impose_cooldown (seconds now : ℚ) (s : RateLimiterState) :
    RateLimiterState :=
  ⟨s.window, max s.cooldown_until (now + seconds)⟩

/-- A sequential run of `acquire` calls: the `k`-th call arrives
`delays[k]` seconds after the previous grant (callers are
single-threaded, so a call can only be issued after the previous one
returned).  Returns all grant times in order and the final state. -/
def runAcquiresGo (r : Nat) :
    List ℚ → ℚ → RateLimiterState → List ℚ → List ℚ × RateLimiterState
  | [], _, s, acc => (acc, s)
  | d :: ds, now, s, acc =>
      let (g, s') := acquire r (now + d) s
      runAcquiresGo r ds g s' (acc ++ [g])

/-- Run a fresh rate limiter (empty window, no cooldown, clock at 0)
through a sequence of `acquire` calls. -/
def runAcquires (r : Nat) (delays : List ℚ) : List ℚ × RateLimiterState :=
  runAcquiresGo r delays 0 ⟨[], 0⟩ []

/-- Membership of a grant time in the sliding window `[w, w + 60)`. -/
def inSlidingWindow (w t : ℚ) : Prop := w ≤ t ∧ t < w + 60

/-! ## Association-list lemmas -/

theorem alKeys_cons {α : Type} (p : String × α) (rest : List (String × α)) :
    alKeys (p :: rest) = p.1 :: alKeys rest := rfl

theorem alGet_alSet_self {α : Type} (d : List (String × α)) (k : String)
    (v : α) : alGet (alSet d k v) k = some v := by
  induction d with
  | nil => simp [alSet, alGet]
  | cons p rest ih =>
      obtain ⟨k0, v0⟩ := p
      by_cases h : k0 = k
      · subst h
        simp [alSet, alGet]
      · simp [alSet, alGet, h, ih]

theorem alGet_alSet_other {α : Type} (d : List (String × α)) (k k' : String)
    (v : α) (h : k' ≠ k) : alGet (alSet d k v) k' = alGet d k' := by
  induction d with
  | nil => simp [alSet, alGet, Ne.symm h]
  | cons p rest ih =>
      obtain ⟨k0, v0⟩ := p
      by_cases h0 : k0 = k
      · subst h0
        simp [alSet, alGet, Ne.symm h]
      · by_cases h1 : k0 = k' <;> simp [alSet, alGet, h0, h1, h, ih]

theorem alGet_eq_none_of_notMem {α : Type} (d : List (String × α))
    (k : String) (h : k ∉ alKeys d) : alGet d k = none := by
  induction d with
  | nil => simp [alGet]
  | cons p rest ih =>
      obtain ⟨k0, v0⟩ := p
      simp only [alKeys_cons, List.mem_cons, not_or] at h
      simp [alGet, Ne.symm h.1, ih h.2]

theorem alKeys_alSet_mem {α : Type} (d : List (String × α)) (k : String)
    (v : α) (h : k ∈ alKeys d) : alKeys (alSet d k v) = alKeys d := by
  induction d with
  | nil => simp [alKeys] at h
  | cons p rest ih =>
      obtain ⟨k0, v0⟩ := p
      by_cases h0 : k0 = k
      · simp [alSet, h0, alKeys]
      · simp only [alKeys_cons, List.mem_cons] at h
        rcases h with h | h
        · exact absurd h.symm h0
        · simp [alSet, alKeys_cons, h0, ih h]

theorem mem_alSet_values {α : Type} (P : α → Prop) (d : List (String × α))
    (k : String) (v : α) (hd : ∀ p ∈ d, P p.2) (hv : P v) :
    ∀ p ∈ alSet d k v, P p.2 := by
  induction d with
  | nil =>
      intro p hp
      simp [alSet] at hp
      rw [hp]
      exact hv
  | cons q rest ih =>
      obtain ⟨k0, v0⟩ := q
      intro p hp
      by_cases h0 : k0 = k
      · rw [show alSet ((k0, v0) :: rest) k v = (k0, v) :: rest from by
          simp [alSet, h0]] at hp
        rcases List.mem_cons.mp hp with rfl | hp
        · exact hv
        · exact hd p (List.mem_cons_of_mem _ hp)
      · rw [show alSet ((k0, v0) :: rest) k v = (k0, v0) :: alSet rest k v from by
          simp [alSet, h0]] at hp
        rcases List.mem_cons.mp hp with rfl | hp
        · exact hd (k0, v0) (List.mem_cons_self _ _)
        · exact ih (fun q hq => hd q (List.mem_cons_of_mem _ hq)) p hp

theorem alGet_alUpdate_notMem {α : Type} (u d : List (String × α))
    (k : String) (h : k ∉ alKeys u) :
    alGet (alUpdate d u) k = alGet d k := by
  induction u generalizing d with
  | nil => simp [alUpdate]
  | cons p rest ih =>
      obtain ⟨k0, v0⟩ := p
      simp only [alKeys_cons, List.mem_cons, not_or] at h
      have step : alUpdate d ((k0, v0) :: rest) = alUpdate (alSet d k0 v0) rest := by
        simp [alUpdate]
      rw [step, ih (alSet d k0 v0) h.2, alGet_alSet_other d k0 k v0 h.1]

theorem alGet_alUpdate_mem {α : Type} (P : α → Prop) (u d : List (String × α))
    (k : String) (hall : ∀ p ∈ u, P p.2) (hmem : k ∈ alKeys u) :
    ∃ v, alGet (alUpdate d u) k = some v ∧ P v := by
  induction u generalizing d with
  | nil => simp [alKeys] at hmem
  | cons p rest ih =>
      obtain ⟨k0, v0⟩ := p
      have step : alUpdate d ((k0, v0) :: rest) = alUpdate (alSet d k0 v0) rest := by
        simp [alUpdate]
      rw [step]
      by_cases hk : k ∈ alKeys rest
      · exact ih (alSet d k0 v0) (fun q hq => hall q (List.mem_cons_of_mem _ hq)) hk
      · have hk0 : k0 = k := by
          simp only [alKeys_cons, List.mem_cons] at hmem
          rcases hmem with h | h
          · exact h.symm
          · exact absurd h hk
        refine ⟨v0, ?_, hall (k0, v0) (List.mem_cons_self _ _)⟩
        rw [alGet_alUpdate_notMem rest (alSet d k0 v0) k hk, hk0, alGet_alSet_self]

theorem alGet_foldl_setConst_notMem {α : Type} (ks : List String)
    (d : List (String × α)) (v : α) (k : String) (h : k ∉ ks) :
    alGet (ks.foldl (fun acc k' => alSet acc k' v) d) k = alGet d k := by
  induction ks generalizing d with
  | nil => simp
  | cons k0 rest ih =>
      simp only [List.mem_cons, not_or] at h
      simp only [List.foldl_cons]
      rw [ih (alSet d k0 v) h.2, alGet_alSet_other d k0 k v h.1]

theorem alGet_foldl_setConst_mem {α : Type} (ks : List String)
    (d : List (String × α)) (v : α) (k : String) (h : k ∈ ks) :
    alGet (ks.foldl (fun acc k' => alSet acc k' v) d) k = some v := by
  induction ks generalizing d with
  | nil => simp at h
  | cons k0 rest ih =>
      simp only [List.foldl_cons]
      by_cases hk : k ∈ rest
      · exact ih (alSet d k0 v) hk
      · have hk0 : k0 = k := by
          rcases List.mem_cons.mp h with h' | h'
          · exact h'.symm
          · exact absurd h' hk
        rw [alGet_foldl_setConst_notMem rest (alSet d k0 v) v k hk, hk0,
          alGet_alSet_self]

/-! ## Well-formedness of the indicator dictionaries -/

/-- A legal indicator cell: a number or the `'N/A'` sentinel. -/
def okCell (c : Cell) : Prop := (∃ q, c = Cell.num q) ∨ c = Cell.str "N/A"

/-- An indicator dictionary carrying exactly the 17 declared keys, every
value a number or the sentinel. -/
def GoodInd (d : Record) : Prop :=
  alKeys d = indicatorKeys ∧ ∀ p ∈ d, okCell p.2

theorem goodInd_init : GoodInd initIndicators := by
  constructor
  · rfl
  · intro p hp
    simp only [initIndicators, List.mem_cons, List.not_mem_nil, or_false] at hp
    rcases hp with rfl | rfl | rfl | rfl | rfl | rfl | rfl | rfl | rfl | rfl |
      rfl | rfl | rfl | rfl | rfl | rfl | rfl
    all_goals exact Or.inr rfl

theorem goodInd_alSet (d : Record) (k : String) (v : Cell) (hd : GoodInd d)
    (hk : k ∈ indicatorKeys) (hv : okCell v) : GoodInd (alSet d k v) := by
  constructor
  · rw [alKeys_alSet_mem d k v (by rw [hd.1]; exact hk), hd.1]
  · exact mem_alSet_values okCell d k v hd.2 hv

theorem goodInd_applyMatch (d : Record) (k : String) (m : Option ℚ)
    (hd : GoodInd d) (hk : k ∈ indicatorKeys) : GoodInd (applyMatch d k m) := by
  cases m with
  | none => exact hd
  | some v => exact goodInd_alSet d k _ hd hk (Or.inl ⟨v, rfl⟩)

theorem goodInd_pivotRowStep (d : Record) (row : String × Option ℚ)
    (hd : GoodInd d) : GoodInd (pivotRowStep d row) := by
  obtain ⟨label, m⟩ := row
  cases m with
  | none => exact hd
  | some v =>
      simp only [pivotRowStep]
      split_ifs <;>
        first
          | exact goodInd_alSet _ _ _ hd (by decide) (Or.inl ⟨v, rfl⟩)
          | exact hd

theorem goodInd_pivotFold (rows : List (String × Option ℚ)) (d : Record)
    (hd : GoodInd d) : GoodInd (extract_pivot_points rows d) := by
  unfold extract_pivot_points
  induction rows generalizing d with
  | nil => exact hd
  | cons row rest ih => exact ih (pivotRowStep d row) (goodInd_pivotRowStep d row hd)

theorem goodInd_parse (page : PageMatches) :
    GoodInd (extract_indicators_investing_com page) := by
  have g1 := goodInd_applyMatch initIndicators "RSI_14" page.rsi goodInd_init (by decide)
  have g2 := goodInd_applyMatch _ "EMA20" page.ema20 g1 (by decide)
  have g3 := goodInd_applyMatch _ "SMA50" page.sma50 g2 (by decide)
  have g4 := goodInd_applyMatch _ "MACD_value" page.macd g3 (by decide)
  have g5 := goodInd_applyMatch _ "Bollinger_upper" page.bbUpper g4 (by decide)
  have g6 := goodInd_applyMatch _ "Bollinger_lower" page.bbLower g5 (by decide)
  cases hpv : page.volume with
  | none =>
      simp only [extract_indicators_investing_com, hpv]
      exact goodInd_pivotFold _ _
        (goodInd_applyMatch _ "ATR_14" page.atr
          (goodInd_applyMatch _ "ADX_14" page.adx g6 (by decide)) (by decide))
  | some v =>
      simp only [extract_indicators_investing_com, hpv]
      exact goodInd_pivotFold _ _
        (goodInd_applyMatch _ "ATR_14" page.atr
          (goodInd_applyMatch _ "ADX_14" page.adx
            (goodInd_alSet _ "Volume_daily" _ g6 (by decide)
              (Or.inl ⟨volumeValue v, rfl⟩)) (by decide)) (by decide))

theorem goodInd_mock (self : ExtractorSelf) (ticker : String) :
    GoodInd (generate_mock_indicators self ticker) := by
  constructor
  · rfl
  · intro p hp
    simp only [generate_mock_indicators, List.mem_cons, List.not_mem_nil,
      or_false] at hp
    rcases hp with rfl | rfl | rfl | rfl | rfl | rfl | rfl | rfl | rfl | rfl |
      rfl | rfl | rfl | rfl | rfl | rfl | rfl
    all_goals exact Or.inl ⟨_, rfl⟩

/-! ## Fields of the produced records -/

theorem fallback_indicator_fields (ticker url ts msg k : String)
    (hk : k ∈ indicatorKeys) :
    alGet (fallback_result ticker url ts msg) k = some (Cell.str "N/A") := by
  unfold fallback_result
  exact alGet_foldl_setConst_mem indicatorKeys _ _ k hk

theorem fallback_data_quality (ticker url ts msg : String) :
    alGet (fallback_result ticker url ts msg) "data_quality" =
      some (Cell.str "fallback") := by
  unfold fallback_result
  rw [alGet_foldl_setConst_notMem indicatorKeys _ _ _ (by decide)]
  rfl

theorem fallback_notes (ticker url ts msg : String) :
    alGet (fallback_result ticker url ts msg) "notes" =
      some (Cell.str ("Processing error: " ++ msg)) := by
  unfold fallback_result
  rw [alGet_foldl_setConst_notMem indicatorKeys _ _ _ (by decide)]
  rfl

theorem extract_indicator_fields (self : ExtractorSelf)
    (ticker url ts : String) (responses : Nat → FetchAttempt)
    (sel : Option PageMatches) (k : String) (hk : k ∈ indicatorKeys) :
    ∃ c, alGet (extract_indicators_for_ticker self ticker url ts responses sel)
        k = some c ∧ okCell c := by
  unfold extract_indicators_for_ticker
  cases hreq : (extract_with_requests self responses sel).1 with
  | some soup =>
      have hg := goodInd_parse soup
      exact alGet_alUpdate_mem okCell _ _ k hg.2 (by rw [hg.1]; exact hk)
  | none =>
      cases hsel : extract_with_selenium self sel with
      | some soup =>
          have hg := goodInd_parse soup
          exact alGet_alUpdate_mem okCell _ _ k hg.2 (by rw [hg.1]; exact hk)
      | none =>
          have hg := goodInd_mock self ticker
          exact alGet_alUpdate_mem okCell _ _ k hg.2 (by rw [hg.1]; exact hk)

/-! ## The batch loop is a map -/

theorem foldl_append_eq_map {β γ : Type} (f : β → γ) (l : List β)
    (acc : List γ) :
    l.foldl (fun rs it => rs ++ [f it]) acc = acc ++ l.map f := by
  induction l generalizing acc with
  | nil => simp
  | cons hd tl ih => simp [ih]

theorem process_items_eq_map (self : ExtractorSelf) (ts : String)
    (items : List BatchItem) :
    process_items self ts items = items.map (itemResult self ts) := by
  unfold process_items
  simpa using foldl_append_eq_map (itemResult self ts) items []

/-! ## Concrete scenario data used by the claim theorems -/

/-- A fully configured extractor instance (concrete state). -/
def wSelf : ExtractorSelf := ⟨true, 30, 1 / 2, 2, true, fun _ => 0⟩

/-- A fetched page on which no indicator pattern matches. -/
def emptyPage : PageMatches :=
  ⟨none, none, none, none, none, none, none, none, none, []⟩

/-- Existing table with tickers A and B. -/
def c1Existing : RawFrame :=
  ⟨["Ticker", "RSI_14", "notes"],
   [[("Ticker", Cell.str "A"), ("RSI_14", Cell.num 50), ("notes", Cell.str "oldA")],
    [("Ticker", Cell.str "B"), ("RSI_14", Cell.num 60), ("notes", Cell.str "oldB")]]⟩

/-- A batch producing a record only for A. -/
def c1Batch : RawFrame :=
  ⟨["Ticker", "RSI_14"], [[("Ticker", Cell.str "A"), ("RSI_14", Cell.num 55)]]⟩

/-- Existing table with ticker A only. -/
def c2Existing : RawFrame :=
  ⟨["Ticker", "RSI_14"], [[("Ticker", Cell.str "A"), ("RSI_14", Cell.num 50)]]⟩

/-- A batch producing records for A and for the new ticker C. -/
def c2Batch : RawFrame :=
  ⟨["Ticker", "RSI_14"],
   [[("Ticker", Cell.str "A"), ("RSI_14", Cell.num 55)],
    [("Ticker", Cell.str "C"), ("RSI_14", Cell.num 70)]]⟩

/-- C1: the table write-back bug, evaluated.  For the table `{A, B}` and a
batch producing a record only for A, the pandas index-aligned column
assignment `output_df[col] = results_df[col]` overwrites B's value in every
batch column with `NaN`: B's row after the merge differs from its pre-merge
state, refuting the frame property the design requires. -/
theorem merge_overwrites_unbatched_row_with_nan :
    merge_with_existing c1Existing c1Batch =
      some ⟨["Ticker", "RSI_14", "notes"],
       [[("Ticker", Cell.str "A"), ("RSI_14", Cell.num 55), ("notes", Cell.str "oldA")],
        [("Ticker", Cell.str "B"), ("RSI_14", Cell.nan), ("notes", Cell.str "oldB")]]⟩ ∧
    ((merge_with_existing c1Existing c1Batch).getD RawFrame.empty).records.get? 1 ≠
      c1Existing.records.get? 1 := by
  decide

/-- C2: the new-ticker upsert bug, evaluated.  Merging a batch containing
the genuinely new ticker C into a non-empty table writes back a table with
no row for C at all: the column assignment aligns the batch to the existing
index and silently discards new index labels, contradicting the claimed
"concatenate any genuinely new tickers as new rows". -/
theorem merge_drops_new_ticker_row :
    (∃ r ∈ c2Batch.records, alGet r "Ticker" = some (Cell.str "C")) ∧
    merge_with_existing c2Existing c2Batch =
      some ⟨["Ticker", "RSI_14"], [[("Ticker", Cell.str "A"), ("RSI_14", Cell.num 55)]]⟩ ∧
    ∀ r ∈ ((merge_with_existing c2Existing c2Batch).getD RawFrame.empty).records,
      alGet r "Ticker" ≠ some (Cell.str "C") := by
  decide

/-! ## C3: data quality from the match count -/

/-- The quality tag the source derives from the meaningful-match count. -/
def qualityTag (m : Nat) : String :=
  if 3 ≤ m then "good" else if 1 ≤ m then "partial" else "fallback"

/-- Responses that succeed immediately with a page with no matches. -/
def okEmptyPageResponses : Nat → FetchAttempt := fun _ => FetchAttempt.ok emptyPage

/-- C3 counterexample: a successfully fetched page with zero matched
indicators keeps the initial quality `"fallback"` — no mock generation
occurs and the quality is not `"mock"`, contrary to the claim's zero-match
clause. -/
theorem zero_match_quality_is_fallback_not_mock :
    (extract_with_requests wSelf okEmptyPageResponses none).1 = some emptyPage ∧
    meaningfulCount (extract_indicators_investing_com emptyPage) = 0 ∧
    alGet (extract_indicators_for_ticker wSelf "TST" "u" "ts" okEmptyPageResponses none)
      "data_quality" = some (Cell.str "fallback") ∧
    alGet (extract_indicators_for_ticker wSelf "TST" "u" "ts" okEmptyPageResponses none)
      "data_quality" ≠ some (Cell.str "mock") := by
  decide

theorem alGet_alUpdate_goodInd (result ind : Record) (hg : GoodInd ind)
    (k : String) (hk : k ∉ indicatorKeys) :
    alGet (alUpdate result ind) k = alGet result k :=
  alGet_alUpdate_notMem ind result k (by rw [hg.1]; exact hk)

/-- C3 (amended): for every fetched page — by direct HTTP or by the
Selenium fallback — the record's data quality is `qualityTag` of the count
of non-sentinel indicator fields: ≥ 3 gives `"good"` (which lies in the
claimed `{good, excellent}` tier), 1–2 gives `"partial"`, and 0 leaves the
initial `"fallback"` with no mock generation; mock data with quality
`"mock"` is generated exactly when both fetch strategies return nothing. -/
theorem quality_from_match_count (self : ExtractorSelf)
    (ticker url ts : String) (responses : Nat → FetchAttempt)
    (sel : Option PageMatches) :
    (∀ page, (extract_with_requests self responses sel).1 = some page →
      alGet (extract_indicators_for_ticker self ticker url ts responses sel)
          "data_quality" =
        some (Cell.str (qualityTag
          (meaningfulCount (extract_indicators_investing_com page))))) ∧
    ((extract_with_requests self responses sel).1 = none →
      ∀ page, extract_with_selenium self sel = some page →
      alGet (extract_indicators_for_ticker self ticker url ts responses sel)
          "data_quality" =
        some (Cell.str (qualityTag
          (meaningfulCount (extract_indicators_investing_com page))))) ∧
    ((extract_with_requests self responses sel).1 = none →
      extract_with_selenium self sel = none →
      alGet (extract_indicators_for_ticker self ticker url ts responses sel)
          "data_quality" = some (Cell.str "mock")) := by
  refine ⟨?_, ?_, ?_⟩
  · intro page hpage
    unfold extract_indicators_for_ticker
    rw [hpage]
    dsimp only
    rw [alGet_alUpdate_goodInd _ _ (goodInd_parse page) _ (by decide)]
    unfold qualityTag
    split_ifs
    · rw [alGet_alSet_self]
    · rw [alGet_alSet_self]
    · rfl
  · intro hnone page hpage
    unfold extract_indicators_for_ticker
    rw [hnone, hpage]
    dsimp only
    rw [alGet_alUpdate_goodInd _ _ (goodInd_parse page) _ (by decide)]
    rw [alGet_alSet_other _ _ _ _ (by decide)]
    unfold qualityTag
    split_ifs
    · rw [alGet_alSet_self]
    · rw [alGet_alSet_self]
    · rfl
  · intro hnone hsel
    unfold extract_indicators_for_ticker
    rw [hnone, hsel]
    dsimp only
    rw [alGet_alUpdate_goodInd _ _ (goodInd_mock self ticker) _ (by decide)]
    rw [alGet_alSet_other _ _ _ _ (by decide), alGet_alSet_self]

/-- A page with three recognizable indicator values. -/
def c3Page : PageMatches :=
  ⟨some 55, some 101, some 102, none, none, none, none, none, none, []⟩

/-- Responses succeeding immediately with that page. -/
def c3Responses : Nat → FetchAttempt := fun _ => FetchAttempt.ok c3Page

theorem quality_from_match_count_witness :
    alGet (extract_indicators_for_ticker wSelf "AAPL" "u" "ts" c3Responses none)
        "data_quality" =
      some (Cell.str (qualityTag
        (meaningfulCount (extract_indicators_investing_com c3Page)))) :=
  (quality_from_match_count wSelf "AAPL" "u" "ts" c3Responses none).1 c3Page rfl

/-! ## C4: connection-error handling in the direct HTTP strategy -/

/-- The diagnostic classification the connection-error handler logs. -/
def classOfConnError (msg : String) : LogEvent :=
  if connIsDNS msg then LogEvent.dnsResolutionFailed
  else LogEvent.genericConnectionError

/-- A DNS-failing first attempt followed by a successful one. -/
def c4Responses : Nat → FetchAttempt := fun i =>
  if i = 0 then
    FetchAttempt.connectionError "HTTPSConnectionPool: Failed to resolve host"
  else FetchAttempt.ok emptyPage

/-- C4 counterexample: the first attempt raises a connection error that is
classified as a DNS failure, yet the strategy does not give up: it retries,
the second attempt succeeds, and the strategy returns that page — so
connection errors are retried inside the strategy, contrary to the claim. -/
theorem connection_error_retried_counterexample :
    c4Responses 0 =
      FetchAttempt.connectionError "HTTPSConnectionPool: Failed to resolve host" ∧
    extract_with_requests wSelf c4Responses none =
      (some emptyPage, [LogEvent.dnsResolutionFailed]) ∧
    (extract_with_requests wSelf c4Responses none).1 ≠ none := by
  decide

/-- C4 (amended): a connection or DNS-resolution error on a fetch attempt
is logged with its diagnostic classification (DNS versus generic) and is
then retried within the strategy like other transient failures, up to the
3-attempt budget; only when the final attempt also fails does the strategy
return nothing so control falls through to the next strategy. -/
theorem connection_error_classified_and_retried (self : ExtractorSelf)
    (sel : Option PageMatches) (m0 m1 m2 : String) (page : PageMatches) :
    extract_with_requests self
        (fun i => if i = 0 then FetchAttempt.connectionError m0
          else if i = 1 then FetchAttempt.connectionError m1
          else FetchAttempt.connectionError m2) sel =
      (none, [classOfConnError m0, classOfConnError m1, classOfConnError m2]) ∧
    extract_with_requests self
        (fun i => if i = 0 then FetchAttempt.connectionError m0
          else FetchAttempt.ok page) sel =
      (some page, [classOfConnError m0]) := by
  constructor <;> rfl

/-! ## C5: every record carries all 17 indicator keys -/

/-- C5: every record any path of the batch pipeline produces — direct
HTTP, Selenium fallback, mock fallback, or the per-item exception
fallback — binds all 17 declared indicator keys, each to a numeric value
or to the `'N/A'` sentinel, never leaving a key absent. -/
theorem every_record_has_all_indicator_keys (self : ExtractorSelf)
    (ts : String) (items : List BatchItem) :
    ∀ rec ∈ process_items self ts items, ∀ k ∈ indicatorKeys,
      ∃ c, alGet rec k = some c ∧ okCell c := by
  intro rec hrec k hk
  rw [process_items_eq_map] at hrec
  rcases List.mem_map.mp hrec with ⟨item, hitem, rfl⟩
  cases hb : item.behavior with
  | succeeds responses sel =>
      simpa [itemResult, hb] using
        extract_indicator_fields self item.ticker item.url ts responses sel k hk
  | raises msg =>
      refine ⟨Cell.str "N/A", ?_, Or.inr rfl⟩
      simp [itemResult, hb, fallback_indicator_fields item.ticker item.url ts msg k hk]

/-- A one-item batch whose item raises. -/
def c5Items : List BatchItem := [⟨"AAPL", "u", ItemBehavior.raises "boom"⟩]

theorem every_record_has_all_indicator_keys_witness :
    ∃ c, alGet (fallback_result "AAPL" "u" "ts" "boom") "RSI_14" = some c ∧
      okCell c :=
  every_record_has_all_indicator_keys wSelf "ts" c5Items
    (fallback_result "AAPL" "u" "ts" "boom") (by decide) "RSI_14" (by decide)

/-! ## C6: one raising item does not abort the batch -/

/-- C6: if item k of a batch raises, the batch still yields exactly one
record per item; item k's record is the fallback record, with quality
`"fallback"` and a notes field carrying the exception message, and every
other item's record is exactly what its own processing yields. -/
theorem batch_survives_item_exception (self : ExtractorSelf) (ts : String)
    (items : List BatchItem) (k : Nat) (item : BatchItem) (msg : String)
    (hget : items[k]? = some item)
    (hraise : item.behavior = ItemBehavior.raises msg) :
    (process_items self ts items).length = items.length ∧
    (process_items self ts items)[k]? =
      some (fallback_result item.ticker item.url ts msg) ∧
    alGet (fallback_result item.ticker item.url ts msg) "data_quality" =
      some (Cell.str "fallback") ∧
    alGet (fallback_result item.ticker item.url ts msg) "notes" =
      some (Cell.str ("Processing error: " ++ msg)) ∧
    ∀ (j : Nat) (other : BatchItem), items[j]? = some other →
      (process_items self ts items)[j]? = some (itemResult self ts other) := by
  rw [process_items_eq_map]
  refine ⟨by simp, ?_, fallback_data_quality _ _ _ _, fallback_notes _ _ _ _, ?_⟩
  · rw [List.getElem?_map, hget]
    simp [itemResult, hraise]
  · intro j other hj
    rw [List.getElem?_map, hj]
    rfl

/-- A two-item batch whose second item raises. -/
def c6Items : List BatchItem :=
  [⟨"AAPL", "u1", ItemBehavior.succeeds okEmptyPageResponses none⟩,
   ⟨"MSFT", "u2", ItemBehavior.raises "stage blew up"⟩]

theorem batch_survives_item_exception_witness :
    (process_items wSelf "ts" c6Items).length = c6Items.length ∧
    (process_items wSelf "ts" c6Items)[1]? =
      some (fallback_result "MSFT" "u2" "ts" "stage blew up") ∧
    alGet (fallback_result "MSFT" "u2" "ts" "stage blew up") "data_quality" =
      some (Cell.str "fallback") ∧
    alGet (fallback_result "MSFT" "u2" "ts" "stage blew up") "notes" =
      some (Cell.str ("Processing error: " ++ "stage blew up")) :=
  ⟨(batch_survives_item_exception wSelf "ts" c6Items 1
      ⟨"MSFT", "u2", ItemBehavior.raises "stage blew up"⟩ "stage blew up" rfl rfl).1,
   (batch_survives_item_exception wSelf "ts" c6Items 1
      ⟨"MSFT", "u2", ItemBehavior.raises "stage blew up"⟩ "stage blew up" rfl rfl).2.1,
   (batch_survives_item_exception wSelf "ts" c6Items 1
      ⟨"MSFT", "u2", ItemBehavior.raises "stage blew up"⟩ "stage blew up" rfl rfl).2.2.1,
   (batch_survives_item_exception wSelf "ts" c6Items 1
      ⟨"MSFT", "u2", ItemBehavior.raises "stage blew up"⟩ "stage blew up" rfl rfl).2.2.2.1⟩

/-! ## C7: determinism of the mock generator -/

/-- C7: the mock generator's output is a pure function of the ticker
string alone, seeded only through the stable MD5 hash: it is independent
of the extractor's entire mutable state — configuration and the `random`
stream — so two calls with the same ticker, within one run (same state)
or across runs (any two states), return identical mappings, with no
randomness and no network access in the model. -/
theorem mock_generator_deterministic (s₁ s₂ : ExtractorSelf) (T : String) :
    generate_mock_indicators s₁ T = generate_mock_indicators s₂ T := rfl

/-! ## C9: backup before write -/

/-- The pre-merge output table of the backup scenario. -/
def c9Existing : RawFrame :=
  ⟨["Ticker", "RSI_14"], [[("Ticker", Cell.str "A"), ("RSI_14", Cell.num 50)]]⟩

/-- An empty URL table: zero batch rows, so `pd.DataFrame([])` has no
`Ticker` column and the unguarded `set_index` raises. -/
def c9EmptyFs : FileSys :=
  ⟨[("URL.xlsx", ⟨["Ticker", "URL"], []⟩), ("tickers.xlsx", c9Existing)]⟩

/-- Sanity check of the modelled `KeyError` path: with an empty batch the
merge raises, the run reports failure, the output table keeps its
pre-merge contents, and the backup written before the merge exists. -/
theorem empty_batch_merge_raises :
    merge_with_existing c9Existing ⟨[], []⟩ = none ∧
    (process_tickers_file wSelf "20240101_120000"
        (fun _ => ItemBehavior.raises "e") "URL.xlsx" "tickers.xlsx"
        c9EmptyFs).1 = false ∧
    alGet (process_tickers_file wSelf "20240101_120000"
        (fun _ => ItemBehavior.raises "e") "URL.xlsx" "tickers.xlsx"
        c9EmptyFs).2.files "tickers.xlsx" = some c9Existing ∧
    alGet (process_tickers_file wSelf "20240101_120000"
        (fun _ => ItemBehavior.raises "e") "URL.xlsx" "tickers.xlsx"
        c9EmptyFs).2.files (backup_name "tickers.xlsx" "20240101_120000") =
      some c9Existing := by
  decide

/-! ## C10: internal ordering of the mock values -/

theorem roundHalfEven_intCast (z : ℤ) : roundHalfEven ((z : ℚ)) = z := by
  unfold roundHalfEven
  norm_num

theorem pyRound_intCast (z : ℤ) (n : Nat) : pyRound ((z : ℚ)) n = (z : ℚ) := by
  unfold pyRound
  rw [show ((z : ℚ) * 10 ^ n) = (((z * 10 ^ n : ℤ)) : ℚ) by push_cast; ring,
    roundHalfEven_intCast]
  push_cast
  have h10 : ((10 : ℚ)) ^ n ≠ 0 := pow_ne_zero n (by norm_num)
  field_simp

theorem pyRound_int_like (q : ℚ) (z : ℤ) (n : Nat) (hq : q = (z : ℚ)) :
    pyRound q n = ((z : ℤ) : ℚ) := by rw [hq, pyRound_intCast]

theorem mock_ordering_core (h : Nat) :
    pyRound ((100 : ℚ) + ((h % 500 : ℕ) : ℚ) - 25 - ((h % 15 : ℕ) : ℚ)) 2 <
      pyRound ((100 : ℚ) + ((h % 500 : ℕ) : ℚ) - 15 - ((h % 10 : ℕ) : ℚ)) 2 ∧
    pyRound ((100 : ℚ) + ((h % 500 : ℕ) : ℚ) - 15 - ((h % 10 : ℕ) : ℚ)) 2 <
      pyRound ((100 : ℚ) + ((h % 500 : ℕ) : ℚ) + ((h % 20 : ℕ) : ℚ) - 10) 2 ∧
    pyRound ((100 : ℚ) + ((h % 500 : ℕ) : ℚ) + ((h % 20 : ℕ) : ℚ) - 10) 2 <
      pyRound ((100 : ℚ) + ((h % 500 : ℕ) : ℚ) + 15 + ((h % 10 : ℕ) : ℚ)) 2 ∧
    pyRound ((100 : ℚ) + ((h % 500 : ℕ) : ℚ) + 15 + ((h % 10 : ℕ) : ℚ)) 2 <
      pyRound ((100 : ℚ) + ((h % 500 : ℕ) : ℚ) + 25 + ((h % 15 : ℕ) : ℚ)) 2 ∧
    pyRound ((100 : ℚ) + ((h % 500 : ℕ) : ℚ) - 20 - ((h % 10 : ℕ) : ℚ)) 2 <
      pyRound ((100 : ℚ) + ((h % 500 : ℕ) : ℚ)) 2 ∧
    pyRound ((100 : ℚ) + ((h % 500 : ℕ) : ℚ)) 2 <
      pyRound ((100 : ℚ) + ((h % 500 : ℕ) : ℚ) + 20 + ((h % 10 : ℕ) : ℚ)) 2 := by
  have es2 : pyRound ((100 : ℚ) + ((h % 500 : ℕ) : ℚ) - 25 - ((h % 15 : ℕ) : ℚ)) 2 =
      ((100 + ((h % 500 : ℕ) : ℤ) - 25 - ((h % 15 : ℕ) : ℤ) : ℤ) : ℚ) :=
    pyRound_int_like _ _ 2 (by push_cast; ring_nf; norm_cast)
  have es1 : pyRound ((100 : ℚ) + ((h % 500 : ℕ) : ℚ) - 15 - ((h % 10 : ℕ) : ℚ)) 2 =
      ((100 + ((h % 500 : ℕ) : ℤ) - 15 - ((h % 10 : ℕ) : ℤ) : ℤ) : ℚ) :=
    pyRound_int_like _ _ 2 (by push_cast; ring_nf; norm_cast)
  have epiv : pyRound ((100 : ℚ) + ((h % 500 : ℕ) : ℚ) + ((h % 20 : ℕ) : ℚ) - 10) 2 =
      ((100 + ((h % 500 : ℕ) : ℤ) + ((h % 20 : ℕ) : ℤ) - 10 : ℤ) : ℚ) :=
    pyRound_int_like _ _ 2 (by push_cast; ring_nf; norm_cast)
  have er1 : pyRound ((100 : ℚ) + ((h % 500 : ℕ) : ℚ) + 15 + ((h % 10 : ℕ) : ℚ)) 2 =
      ((100 + ((h % 500 : ℕ) : ℤ) + 15 + ((h % 10 : ℕ) : ℤ) : ℤ) : ℚ) :=
    pyRound_int_like _ _ 2 (by push_cast; ring_nf; norm_cast)
  have er2 : pyRound ((100 : ℚ) + ((h % 500 : ℕ) : ℚ) + 25 + ((h % 15 : ℕ) : ℚ)) 2 =
      ((100 + ((h % 500 : ℕ) : ℤ) + 25 + ((h % 15 : ℕ) : ℤ) : ℤ) : ℚ) :=
    pyRound_int_like _ _ 2 (by push_cast; ring_nf; norm_cast)
  have ebl : pyRound ((100 : ℚ) + ((h % 500 : ℕ) : ℚ) - 20 - ((h % 10 : ℕ) : ℚ)) 2 =
      ((100 + ((h % 500 : ℕ) : ℤ) - 20 - ((h % 10 : ℕ) : ℤ) : ℤ) : ℚ) :=
    pyRound_int_like _ _ 2 (by push_cast; ring_nf; norm_cast)
  have ebm : pyRound ((100 : ℚ) + ((h % 500 : ℕ) : ℚ)) 2 =
      ((100 + ((h % 500 : ℕ) : ℤ) : ℤ) : ℚ) :=
    pyRound_int_like _ _ 2 (by push_cast; ring_nf; norm_cast)
  have ebu : pyRound ((100 : ℚ) + ((h % 500 : ℕ) : ℚ) + 20 + ((h % 10 : ℕ) : ℚ)) 2 =
      ((100 + ((h % 500 : ℕ) : ℤ) + 20 + ((h % 10 : ℕ) : ℤ) : ℤ) : ℚ) :=
    pyRound_int_like _ _ 2 (by push_cast; ring_nf; norm_cast)
  have b10 : (h % 10 : ℕ) < 10 := Nat.mod_lt _ (by norm_num)
  have b15 : (h % 15 : ℕ) < 15 := Nat.mod_lt _ (by norm_num)
  have b20 : (h % 20 : ℕ) < 20 := Nat.mod_lt _ (by norm_num)
  refine ⟨?_, ?_, ?_, ?_, ?_, ?_⟩
  · rw [es2, es1]
    exact Int.cast_lt.mpr (by omega)
  · rw [es1, epiv]
    exact Int.cast_lt.mpr (by omega)
  · rw [epiv, er1]
    exact Int.cast_lt.mpr (by omega)
  · rw [er1, er2]
    exact Int.cast_lt.mpr (by omega)
  · rw [ebl, ebm]
    exact Int.cast_lt.mpr (by omega)
  · rw [ebm, ebu]
    exact Int.cast_lt.mpr (by omega)

/-- C10: for every ticker, the mock generator's output is internally
order-consistent: the support levels satisfy S2 < S1, both strictly below
the pivot, the resistances satisfy R1 < R2, both strictly above the pivot,
and the Bollinger bands satisfy lower < middle < upper. -/
theorem mock_values_ordering (self : ExtractorSelf) (ticker : String) :
    ∃ piv s1 s2 r1 r2 bu bm bl : ℚ,
      alGet (generate_mock_indicators self ticker) "Woodies_Pivot" =
        some (Cell.num piv) ∧
      alGet (generate_mock_indicators self ticker) "Woodies_S1" =
        some (Cell.num s1) ∧
      alGet (generate_mock_indicators self ticker) "Woodies_S2" =
        some (Cell.num s2) ∧
      alGet (generate_mock_indicators self ticker) "Woodies_R1" =
        some (Cell.num r1) ∧
      alGet (generate_mock_indicators self ticker) "Woodies_R2" =
        some (Cell.num r2) ∧
      alGet (generate_mock_indicators self ticker) "Bollinger_upper" =
        some (Cell.num bu) ∧
      alGet (generate_mock_indicators self ticker) "Bollinger_middle" =
        some (Cell.num bm) ∧
      alGet (generate_mock_indicators self ticker) "Bollinger_lower" =
        some (Cell.num bl) ∧
      s2 < s1 ∧ s1 < piv ∧ piv < r1 ∧ r1 < r2 ∧ bl < bm ∧ bm < bu := by
  refine ⟨_, _, _, _, _, _, _, _, rfl, rfl, rfl, rfl, rfl, rfl, rfl, rfl,
    (mock_ordering_core (md5HashVal ticker)).1,
    (mock_ordering_core (md5HashVal ticker)).2.1,
    (mock_ordering_core (md5HashVal ticker)).2.2.1,
    (mock_ordering_core (md5HashVal ticker)).2.2.2.1,
    (mock_ordering_core (md5HashVal ticker)).2.2.2.2.1,
    (mock_ordering_core (md5HashVal ticker)).2.2.2.2.2⟩

/-! ## C8: the sliding-window admission bound -/

theorem filter_length_mono {α : Type} (l : List α) (p q : α → Bool)
    (h : ∀ a ∈ l, p a = true → q a = true) :
    (l.filter p).length ≤ (l.filter q).length := by
  induction l with
  | nil => simp
  | cons a t ih =>
      have ht : ∀ x ∈ t, p x = true → q x = true :=
        fun x hx => h x (List.mem_cons_of_mem _ hx)
      by_cases hp : p a
      · have hq : q a = true := h a (List.mem_cons_self _ _) hp
        simp only [List.filter_cons, hp, hq, if_true]
        simpa using ih ht
      · simp only [List.filter_cons, hp, if_false, Bool.false_eq_true]
        by_cases hq : q a <;>
          simp only [hq, if_true, if_false, Bool.false_eq_true, List.length_cons]
        · exact le_trans (ih ht) (Nat.le_succ _)
        · exact ih ht

theorem filter_length_lt_of_mem_false {α : Type} (l : List α) (p : α → Bool)
    (a : α) (ha : a ∈ l) (hpa : p a = false) :
    (l.filter p).length < l.length := by
  induction l with
  | nil => simp at ha
  | cons b t ih =>
      rcases List.mem_cons.mp ha with rfl | ha'
      · simp only [List.filter_cons, hpa, if_false, Bool.false_eq_true,
          List.length_cons]
        exact Nat.lt_succ_of_le (List.length_filter_le _ _)
      · by_cases hb : p b
        · simp only [List.filter_cons, hb, if_true, List.length_cons]
          exact Nat.succ_lt_succ (ih ha')
        · simp only [List.filter_cons, hb, if_false, Bool.false_eq_true,
            List.length_cons]
          exact Nat.lt_succ_of_lt (ih ha')

theorem headD_mem {α : Type} (l : List α) (d : α) (h : l ≠ []) :
    l.headD d ∈ l := by
  cases l with
  | nil => exact absurd rfl h
  | cons a t => simp [List.headD]

theorem prune_prune (gs : List ℚ) (a b : ℚ) (hab : a ≤ b) :
    pruneWindow b (gs.filter (fun x => decide (a - x < 60))) =
      gs.filter (fun x => decide (b - x < 60)) := by
  unfold pruneWindow
  rw [List.filter_filter]
  refine List.filter_congr ?_
  intro x hx
  by_cases hbx : b - x < 60
  · have hax : a - x < 60 := lt_of_le_of_lt (by linarith) hbx
    simp [hbx, hax]
  · simp [hbx]

/-- The invariant carried through a run of the rate limiter: every grant
lies in the past, the window holds exactly the grants of the last 60
seconds, the window never exceeds the quota, and no sliding 60-second
window holds more than `r` grants. -/
def RLInvariant (r : Nat) (gs : List ℚ) (now : ℚ) (s : RateLimiterState) :
    Prop :=
  (∀ t ∈ gs, t ≤ now) ∧
  s.window = gs.filter (fun t => decide (now - t < 60)) ∧
  s.window.length ≤ r ∧
  ∀ w : ℚ, (gs.filter (fun t => decide (w ≤ t ∧ t < w + 60))).length ≤ r

theorem window_count_step (r : Nat) (gs : List ℚ) (g : ℚ)
    (hcount : ∀ w : ℚ,
      (gs.filter (fun x => decide (w ≤ x ∧ x < w + 60))).length ≤ r)
    (hbound : (gs.filter (fun x => decide (g - x < 60))).length < r) :
    ∀ w : ℚ,
      ((gs ++ [g]).filter (fun x => decide (w ≤ x ∧ x < w + 60))).length ≤ r := by
  intro w
  rw [List.filter_append, List.length_append]
  by_cases hw : w ≤ g ∧ g < w + 60
  · have hmono : (gs.filter (fun x => decide (w ≤ x ∧ x < w + 60))).length ≤
        (gs.filter (fun x => decide (g - x < 60))).length := by
      apply filter_length_mono
      intro x hx hpx
      have hp := of_decide_eq_true hpx
      exact decide_eq_true (show g - x < 60 by linarith [hp.1, hw.2])
    have hsing : ([g].filter (fun x => decide (w ≤ x ∧ x < w + 60))).length = 1 := by
      simp [List.filter, hw]
    omega
  · have hsing : ([g].filter (fun x => decide (w ≤ x ∧ x < w + 60))).length = 0 := by
      simp [List.filter, hw]
    have := hcount w
    omega

theorem self_in_window (gs : List ℚ) (g : ℚ) :
    (gs ++ [g]).filter (fun x => decide (g - x < 60)) =
      gs.filter (fun x => decide (g - x < 60)) ++ [g] := by
  rw [List.filter_append]
  congr 1
  simp [List.filter]

theorem acquire_step (r : Nat) (hr : 1 ≤ r) (gs : List ℚ) (now t : ℚ)
    (s : RateLimiterState) (hinv : RLInvariant r gs now s) (ht : now ≤ t) :
    RLInvariant r (gs ++ [(acquire r t s).1]) (acquire r t s).1
      (acquire r t s).2 ∧ now ≤ (acquire r t s).1 := by
  obtain ⟨hle, hwin, hlen, hcount⟩ := hinv
  have ht1 : now ≤ max t s.cooldown_until := le_trans ht (le_max_left _ _)
  have hq1 : pruneWindow (max t s.cooldown_until) s.window =
      gs.filter (fun x => decide (max t s.cooldown_until - x < 60)) := by
    rw [hwin]
    exact prune_prune gs now (max t s.cooldown_until) ht1
  unfold acquire
  by_cases hlt : (pruneWindow (max t s.cooldown_until) s.window).length < r
  · rw [if_pos hlt]
    refine ⟨⟨?_, ?_, ?_, ?_⟩, ht1⟩
    · intro x hx
      rcases List.mem_append.mp hx with hx | hx
      · exact le_trans (hle x hx) ht1
      · simp only [List.mem_singleton] at hx
        exact le_of_eq hx
    · rw [self_in_window, hq1]
    · simp only [List.length_append, List.length_cons, List.length_nil]
      omega
    · exact window_count_step r gs _ hcount (hq1 ▸ hlt)
  · rw [if_neg hlt]
    rw [hq1] at hlt ⊢
    have hlen1 :
        (gs.filter (fun x => decide (max t s.cooldown_until - x < 60))).length = r := by
      have hle1 : (pruneWindow (max t s.cooldown_until) s.window).length ≤
          s.window.length := List.length_filter_le _ _
      rw [hq1] at hle1
      omega
    set G1 := gs.filter (fun x => decide (max t s.cooldown_until - x < 60)) with hG1
    have hne : G1 ≠ [] := by
      intro hnil
      rw [hnil] at hlen1
      simp at hlen1
      omega
    have hmem := headD_mem G1 (max t s.cooldown_until) hne
    have hmem' := hmem
    rw [hG1] at hmem'
    obtain ⟨hgs0, hp0⟩ := List.mem_filter.mp hmem'
    have h0lt : max t s.cooldown_until - G1.headD (max t s.cooldown_until) < 60 :=
      of_decide_eq_true hp0
    have ht2 : max t s.cooldown_until ≤ G1.headD (max t s.cooldown_until) + 60 := by
      linarith
    have hq2 : pruneWindow (G1.headD (max t s.cooldown_until) + 60) G1 =
        gs.filter (fun x =>
          decide (G1.headD (max t s.cooldown_until) + 60 - x < 60)) := by
      rw [hG1]
      exact prune_prune gs (max t s.cooldown_until) _ ht2
    have hfail : (fun x =>
        decide (G1.headD (max t s.cooldown_until) + 60 - x < 60))
          (G1.headD (max t s.cooldown_until)) = false := by
      simp only [add_sub_cancel_left]
      norm_num
    have hq2lt : (pruneWindow (G1.headD (max t s.cooldown_until) + 60) G1).length <
        G1.length := by
      unfold pruneWindow
      exact filter_length_lt_of_mem_false G1 _ _ hmem hfail
    dsimp only
    refine ⟨⟨?_, ?_, ?_, ?_⟩, le_trans ht1 ht2⟩
    · intro x hx
      rcases List.mem_append.mp hx with hx | hx
      · exact le_trans (hle x hx) (le_trans ht1 ht2)
      · simp only [List.mem_singleton] at hx
        exact le_of_eq hx
    · rw [self_in_window, hq2]
    · simp only [List.length_append, List.length_cons, List.length_nil]
      omega
    · refine window_count_step r gs _ hcount ?_
      rw [← hq2]
      omega

theorem runGo_invariant (r : Nat) (hr : 1 ≤ r) (ds : List ℚ)
    (hds : ∀ d ∈ ds, 0 ≤ d) (gs : List ℚ) (now : ℚ) (s : RateLimiterState)
    (hinv : RLInvariant r gs now s) :
    ∃ now', RLInvariant r (runAcquiresGo r ds now s gs).1 now'
      (runAcquiresGo r ds now s gs).2 := by
  induction ds generalizing gs now s with
  | nil => exact ⟨now, hinv⟩
  | cons d ds ih =>
      have hd : 0 ≤ d := hds d (List.mem_cons_self _ _)
      have hstep := acquire_step r hr gs now (now + d) s hinv (by linarith)
      simp only [runAcquiresGo]
      exact ih (fun x hx => hds x (List.mem_cons_of_mem _ hx)) _ _ _ hstep.1

/-- C8: for any sequence of sequential `acquire` calls against the rate
limiter with quota `r ≥ 1` per rolling 60 seconds, no sliding 60-second
window `[w, w + 60)` ever contains more than `r` granted timestamps. -/
theorem rate_limiter_window_bound (r : Nat) (delays : List ℚ) (w : ℚ)
    (hr : 1 ≤ r) (hd : ∀ d ∈ delays, 0 ≤ d) :
    ((runAcquires r delays).1.filter
      (fun t => decide (w ≤ t ∧ t < w + 60))).length ≤ r := by
  have hinit : RLInvariant r [] 0 ⟨[], 0⟩ :=
    ⟨by simp, by simp [List.filter], by simp, by simp⟩
  obtain ⟨now', hinv⟩ := runGo_invariant r hr delays hd [] 0 ⟨[], 0⟩ hinit
  exact hinv.2.2.2 w

theorem rate_limiter_window_bound_witness :
    1 ≤ 2 ∧
    ((runAcquires 2 [(0 : ℚ), 0, 0]).1.filter
      (fun t => decide ((0 : ℚ) ≤ t ∧ t < 0 + 60))).length ≤ 2 :=
  ⟨by norm_num,
   rate_limiter_window_bound 2 [0, 0, 0] 0 (by norm_num) (by decide)⟩
